import Mathlib

/-!
Shallow embedding of `ultramario1-1testdemo.py`, a small pygame
side-scroller.  Rectangles are integer axis-aligned boxes, because
pygame's `Rect` truncates float coordinates toward zero; the player's
real-valued physics state is modelled over `ℚ`.  Each section of the
main loop body becomes a function from game state to game state, and
`frameStep` is one iteration of the loop body.
-/

attribute [local semireducible] Rat.add Rat.mul Rat.inv Rat.sub

set_option maxRecDepth 400000

/-- Truncation toward zero: the conversion Python's `int()` (and the
pygame `Rect` constructor) applies to a float coordinate. -/
def pyInt (q : ℚ) : Int := q.num / (q.den : Int)

/-- Python's two-argument `min` on rationals. -/
def pymin (a b : ℚ) : ℚ := if a ≤ b then a else b

/-- Python's two-argument `max` on rationals. -/
def pymax (a b : ℚ) : ℚ := if b ≤ a then a else b

/-- Python's two-argument `min` on integers. -/
def pyminI (a b : Int) : Int := if a ≤ b then a else b

/-- Python's two-argument `max` on integers. -/
def pymaxI (a b : Int) : Int := if b ≤ a then a else b

def SCREEN_W : Int := 800
def SCREEN_H : Int := 480
def TILE_W : Int := 50
def TILE_H : Int := 20
def GROUND_Y : Int := SCREEN_H - 40
def WORLD_W : Int := 5500
def MARIO_W : Int := 32
def MARIO_H : Int := 48
def MARIO_SPEED : ℚ := 200
def JUMP_FORCE : ℚ := -420
def GRAVITY : ℚ := 900

/-- Integer axis-aligned rectangle, mirroring `pygame.Rect`. -/
structure Rect where
  x : Int
  y : Int
  w : Int
  h : Int
  deriving DecidableEq, Repr

/-- The pygame `colliderect` test: strict overlap on both axes. -/
def Rect.colliderect (a b : Rect) : Bool :=
  decide (a.x < b.x + b.w) && decide (a.x + a.w > b.x) &&
  decide (a.y < b.y + b.h) && decide (a.y + a.h > b.y)

/-- The pygame `centerx`: left edge plus half the width (integer division). -/
def Rect.centerx (r : Rect) : Int := r.x + r.w / 2

/-- One coin `[x, y, flag]`; `alive = true` means not yet collected. -/
structure Coin where
  x : Int
  y : Int
  alive : Bool
  deriving DecidableEq, Repr

structure Goomba where
  rect : Rect
  vel_x : Int
  dead : Bool
  deriving DecidableEq, Repr

/-- `Goomba.__init__`; the `random.choice([-60, 60])` draw is modelled by
the explicit direction argument `dir`. -/
def Goomba.init (x y : Int) (dir : Bool) : Goomba :=
  { rect := ⟨x, y - 24, 32, 24⟩, vel_x := if dir then 60 else -60, dead := false }

/-- Body of the block loop in `Goomba.update`: horizontal snap-and-bounce
on overlap, then the thin "under" probe feeding the grounded flag.  The
accumulator is (rect, vel_x, on_ground). -/
def goombaBlockStep (acc : Rect × Int × Bool) (blk : Int × Int) : Rect × Int × Bool :=
  let b : Rect := ⟨blk.1, blk.2, TILE_W, TILE_H⟩
  let rv : Rect × Int :=
    if Rect.colliderect acc.1 b then
      if acc.2.1 > 0 then ({ acc.1 with x := b.x - acc.1.w }, -acc.2.1)
      else ({ acc.1 with x := b.x + b.w }, -acc.2.1)
    else (acc.1, acc.2.1)
  let under : Rect := ⟨blk.1, blk.2 - 2, TILE_W, 2⟩
  (rv.1, rv.2, acc.2.2 || Rect.colliderect rv.1 under)

/-- `Goomba.update(dt, blocks)`: no-op when dead; otherwise move by
`vel_x * dt` (truncated into the integer rect), run the block loop, and
apply gravity as a direct truncated position increment when ungrounded. -/
def Goomba.update (dt : ℚ) (blocks : List (Int × Int)) (g : Goomba) : Goomba :=
  if g.dead then g
  else
    let r0 : Rect := { g.rect with x := pyInt ((g.rect.x : ℚ) + (g.vel_x : ℚ) * dt) }
    let res := blocks.foldl goombaBlockStep (r0, g.vel_x, false)
    let r1 := if res.2.2 then res.1 else { res.1 with y := res.1.y + pyInt (GRAVITY * dt) }
    { g with rect := r1, vel_x := res.2.1 }

/-- `build_level()` blocks: ground row plus the three platforms. -/
def levelBlocks : List (Int × Int) :=
  ((List.range 110).map fun i => ((i : Int) * TILE_W, GROUND_Y)) ++
  ((List.range 20).map fun i => (400 + (i : Int) * TILE_W, GROUND_Y - 80)) ++
  ((List.range 6).map fun i => (2000 + (i : Int) * TILE_W, GROUND_Y - 100)) ++
  ((List.range 4).map fun i => (2800 + (i : Int) * TILE_W, GROUND_Y - 60))

/-- `build_level()` coins. -/
def levelCoins : List Coin :=
  ((List.range 18).map fun i =>
    { x := 450 + (i : Int) * TILE_W + TILE_W / 2, y := GROUND_Y - 100, alive := true }) ++
  ((List.range 2).map fun i =>
    { x := 2050 + (i : Int) * 100 + 25, y := GROUND_Y - 120, alive := true })

/-- `build_level()` goombas; the four direction draws are parameters. -/
def levelGoombas (d1 d2 d3 d4 : Bool) : List Goomba :=
  [Goomba.init 800 (GROUND_Y - 24) d1, Goomba.init 1600 (GROUND_Y - 24) d2,
   Goomba.init 2500 (GROUND_Y - 24) d3, Goomba.init 3400 (GROUND_Y - 24) d4]

/-- Held-key state polled once per frame (`pg.key.get_pressed()`). -/
structure Input where
  left : Bool
  right : Bool
  space : Bool
  deriving DecidableEq, Repr

/-- All mutable state of one session of `main()`. -/
structure GameState where
  mario_x : ℚ
  mario_y : ℚ
  vel_y : ℚ
  on_ground : Bool
  score : Nat
  coins : List Coin
  goombas : List Goomba
  camera_x : Int
  running : Bool
  deriving DecidableEq, Repr

def goal_x : Int := WORLD_W - 250

/-- `pg.Rect(mario_x, mario_y, MARIO_W, MARIO_H)` with float truncation. -/
def marioRect (s : GameState) : Rect :=
  ⟨pyInt s.mario_x, pyInt s.mario_y, MARIO_W, MARIO_H⟩

/-- Input handling: arrows move, and space jumps while grounded. -/
def inputStep (inp : Input) (dt : ℚ) (s : GameState) : GameState :=
  let x1 := if inp.left then s.mario_x - MARIO_SPEED * dt else s.mario_x
  let x2 := if inp.right then x1 + MARIO_SPEED * dt else x1
  if inp.space && s.on_ground then
    { s with mario_x := x2, vel_y := JUMP_FORCE, on_ground := false }
  else { s with mario_x := x2 }

/-- Unconditional gravity and vertical integration. -/
def gravityStep (dt : ℚ) (s : GameState) : GameState :=
  let v := s.vel_y + GRAVITY * dt
  { s with vel_y := v, mario_y := s.mario_y + v * dt }

/-- Body of the player tile loop; the accumulator is
(mario_y, vel_y, on_ground), while the rect stays the one built before
the loop. -/
def tileStep (mrect : Rect) (acc : ℚ × ℚ × Bool) (blk : Int × Int) : ℚ × ℚ × Bool :=
  let b : Rect := ⟨blk.1, blk.2, TILE_W, TILE_H⟩
  if Rect.colliderect mrect b && decide (acc.2.1 > 0) then
    (((blk.2 - MARIO_H : Int) : ℚ), 0, true)
  else acc

/-- Player-vs-tile resolution: downward motion only, vertical snap only. -/
def collisionStep (mrect : Rect) (s : GameState) : GameState :=
  let res := levelBlocks.foldl (tileStep mrect) (s.mario_y, s.vel_y, false)
  { s with mario_y := res.1, vel_y := res.2.1, on_ground := res.2.2 }

/-- Pickup test for one coin: a 16x16 box around the coin against the
player's rect, gated on the not-yet-collected flag. -/
def coinHit (mrect : Rect) (c : Coin) : Bool :=
  c.alive && Rect.colliderect ⟨c.x - 8, c.y - 8, 16, 16⟩ mrect

/-- The coin loop: each coin is tested independently, hits flip the flag
and add 100; modelled as a map plus a count for the score total. -/
def coinStep (mrect : Rect) (s : GameState) : GameState :=
  { s with
    coins := s.coins.map fun c => if coinHit mrect c then { c with alive := false } else c,
    score := s.score + 100 * s.coins.countP (coinHit mrect) }

/-- Player-vs-goomba contact (lines 208-214): stomp when descending,
fatal otherwise.  Arguments are the current vel_y, score and running
flag; the result is (goomba, vel_y, score, running). -/
def goombaInteract (mrect : Rect) (g : Goomba) (v : ℚ) (sc : Nat) (run : Bool) :
    Goomba × ℚ × Nat × Bool :=
  if !g.dead && Rect.colliderect mrect g.rect then
    if v > 0 then ({ g with dead := true }, JUMP_FORCE / 2, sc + 200, run)
    else (g, v, sc, false)
  else (g, v, sc, run)

/-- Body of the goomba loop: update the goomba, then resolve contact. -/
def goombaFoldStep (dt : ℚ) (blocks : List (Int × Int)) (mrect : Rect)
    (acc : List Goomba × ℚ × Nat × Bool) (g : Goomba) : List Goomba × ℚ × Nat × Bool :=
  let g1 := Goomba.update dt blocks g
  let t := goombaInteract mrect g1 acc.2.1 acc.2.2.1 acc.2.2.2
  (acc.1.concat t.1, t.2.1, t.2.2.1, t.2.2.2)

def goombaStep (dt : ℚ) (blocks : List (Int × Int)) (mrect : Rect) (s : GameState) : GameState :=
  let res := s.goombas.foldl (goombaFoldStep dt blocks mrect) ([], s.vel_y, s.score, s.running)
  { s with goombas := res.1, vel_y := res.2.1, score := res.2.2.1, running := res.2.2.2 }

/-- The two independent loop-exit checks (fall, then goal crossing). -/
def endCheck (s : GameState) : GameState :=
  let s1 := if s.mario_y > (SCREEN_H : ℚ) then { s with running := false } else s
  if s1.mario_x > ((goal_x + 80 : Int) : ℚ) then { s1 with running := false } else s1

/-- `mario_x = max(0, min(WORLD_W - MARIO_W, mario_x))`. -/
def clampStep (s : GameState) : GameState :=
  { s with mario_x := pymax 0 (pymin ((WORLD_W - MARIO_W : Int) : ℚ) s.mario_x) }

/-- `Camera.update`: follow the player's rect center, clamped to the
world's horizontal extent. -/
def cameraStep (s : GameState) : GameState :=
  { s with camera_x := pymaxI 0 (pyminI ((marioRect s).centerx - SCREEN_W / 2) (WORLD_W - SCREEN_W)) }

/-- The loop body up to (but excluding) the death-or-win checks: input,
gravity, tile collision, coins, goombas.  The player's rect is built
once after integration and reused, as in the source. -/
def framePreEnd (inp : Input) (dt : ℚ) (s : GameState) : GameState :=
  let s1 := inputStep inp dt s
  let s2 := gravityStep dt s1
  let mrect := marioRect s2
  goombaStep dt levelBlocks mrect (coinStep mrect (collisionStep mrect s2))

/-- One full iteration of the main loop body. -/
def frameStep (inp : Input) (dt : ℚ) (s : GameState) : GameState :=
  cameraStep (clampStep (endCheck (framePreEnd inp dt s)))

/-- The end screen message (line 245). -/
def endDisplay (s : GameState) : String :=
  if s.mario_x > (goal_x : ℚ) then "YOU WIN!" else "GAME OVER"

/-- The state right after `build_level()` and the local initialisations
in `main()` (note `on_ground` starts false). -/
def initState (d1 d2 d3 d4 : Bool) : GameState :=
  { mario_x := 50, mario_y := ((GROUND_Y - MARIO_H : Int) : ℚ), vel_y := 0, on_ground := false,
    score := 0, coins := levelCoins, goombas := levelGoombas d1 d2 d3 d4,
    camera_x := 0, running := true }

def noInput : Input := ⟨false, false, false⟩

def spaceInput : Input := ⟨false, false, true⟩

def runFrames (inp : Input) (dt : ℚ) : Nat → GameState → GameState
  | 0, s => s
  | n + 1, s => runFrames inp dt n (frameStep inp dt s)

/-- The list of states after each of `n` frames. -/
def stepTrace (inp : Input) (dt : ℚ) : Nat → GameState → List GameState
  | 0, _ => []
  | n + 1, s =>
    let s1 := frameStep inp dt s
    s1 :: stepTrace inp dt n s1

/-- The initial state with the grounded flag set: the player standing at
rest on the ground, bottom edge flush with the ground tile tops. -/
def restState : GameState := { initState true true true true with on_ground := true }

/-- The coins the render pass draws (line 231 draws a coin only while
its flag is set). -/
def drawnCoins (s : GameState) : List Coin := s.coins.filter fun c => c.alive

/-- A running state in which the player is both past the goal threshold
and falling past the bottom of the screen within the next frame. -/
def fallWinState : GameState :=
  { mario_x := 5400, mario_y := 479, vel_y := 900, on_ground := false, score := 0,
    coins := levelCoins, goombas := levelGoombas true true true true,
    camera_x := 4700, running := true }

/-- The session state after three frames from the initial state with the
jump key held throughout: the player has just landed (grounded, vertical
velocity zero) while the key is still held. -/
def heldJumpState : GameState := runFrames spaceInput (1/60) 3 (initState true true true true)

/-- A state holding a single already-collected coin overlapping the
player, for exercising the coin invariants. -/
def collectedCoinState : GameState :=
  { restState with coins := [{ x := 75, y := 400, alive := false }] }

/-- A player rect placed on top of the first goomba's spawn rect. -/
def stompRect : Rect := ⟨800, 400, 32, 48⟩

/-! ## Small algebraic facts about the clamp helpers -/

theorem pymax_pymin_bounds (lo hi x : ℚ) (h : lo ≤ hi) :
    lo ≤ pymax lo (pymin hi x) ∧ pymax lo (pymin hi x) ≤ hi := by
  have hm : pymin hi x ≤ hi := by
    unfold pymin
    split
    · exact le_refl hi
    · rename_i h2
      exact le_of_not_le h2
  unfold pymax
  constructor
  · split
    · exact le_refl lo
    · rename_i h1
      exact le_of_not_le h1
  · split
    · exact h
    · exact hm

theorem pymaxI_pyminI_bounds (lo hi x : Int) (h : lo ≤ hi) :
    lo ≤ pymaxI lo (pyminI hi x) ∧ pymaxI lo (pyminI hi x) ≤ hi := by
  have hm : pyminI hi x ≤ hi := by
    unfold pyminI
    split
    · exact le_refl hi
    · rename_i h2
      exact le_of_not_le h2
  unfold pymaxI
  constructor
  · split
    · exact le_refl lo
    · rename_i h1
      exact le_of_not_le h1
  · split
    · exact h
    · exact hm

theorem pymaxI_pyminI_bounds' (lo x hi : Int) (h : lo ≤ hi) :
    lo ≤ pymaxI lo (pyminI x hi) ∧ pymaxI lo (pyminI x hi) ≤ hi := by
  have hm : pyminI x hi ≤ hi := by
    unfold pyminI
    split
    · rename_i h2
      exact h2
    · exact le_refl hi
  unfold pymaxI
  constructor
  · split
    · exact le_refl lo
    · rename_i h1
      exact le_of_not_le h1
  · split
    · exact h
    · exact hm

theorem pymaxI_eq_max (a b : Int) : pymaxI a b = max a b := by
  unfold pymaxI
  split
  · rename_i h
    exact (max_eq_left h).symm
  · rename_i h
    exact (max_eq_right (le_of_not_le h)).symm

theorem pyminI_eq_min (a b : Int) : pyminI a b = min a b := by
  unfold pyminI
  rw [min_def]

/-! ## Frame-phase projection lemmas -/

theorem inputStep_coins (inp : Input) (dt : ℚ) (s : GameState) :
    (inputStep inp dt s).coins = s.coins := by
  simp only [inputStep]
  split <;> rfl

theorem inputStep_score (inp : Input) (dt : ℚ) (s : GameState) :
    (inputStep inp dt s).score = s.score := by
  simp only [inputStep]
  split <;> rfl

theorem endCheck_coins (s : GameState) : (endCheck s).coins = s.coins := by
  simp only [endCheck]
  split <;> split <;> rfl

theorem endCheck_score (s : GameState) : (endCheck s).score = s.score := by
  simp only [endCheck]
  split <;> split <;> rfl

theorem goombaInteract_score_le (mrect : Rect) (g : Goomba) (v : ℚ) (sc : Nat) (run : Bool) :
    sc ≤ (goombaInteract mrect g v sc run).2.2.1 := by
  unfold goombaInteract
  split
  · split
    · exact Nat.le_add_right sc 200
    · exact Nat.le_refl sc
  · exact Nat.le_refl sc

theorem goombaFold_score_le (dt : ℚ) (blocks : List (Int × Int)) (mrect : Rect)
    (gs : List Goomba) :
    ∀ acc : List Goomba × ℚ × Nat × Bool,
      acc.2.2.1 ≤ (gs.foldl (goombaFoldStep dt blocks mrect) acc).2.2.1 := by
  induction gs with
  | nil => intro acc; exact Nat.le_refl _
  | cons g gs ih =>
    intro acc
    refine Nat.le_trans ?_ (ih (goombaFoldStep dt blocks mrect acc g))
    exact goombaInteract_score_le mrect (Goomba.update dt blocks g) acc.2.1 acc.2.2.1 acc.2.2.2

theorem goombaStep_score_le (dt : ℚ) (blocks : List (Int × Int)) (mrect : Rect) (s : GameState) :
    s.score ≤ (goombaStep dt blocks mrect s).score :=
  goombaFold_score_le dt blocks mrect s.goombas ([], s.vel_y, s.score, s.running)

theorem frameStep_coins (inp : Input) (dt : ℚ) (s : GameState) :
    (frameStep inp dt s).coins =
      s.coins.map fun c =>
        if coinHit (marioRect (gravityStep dt (inputStep inp dt s))) c then
          { c with alive := false }
        else c := by
  show (cameraStep (clampStep (endCheck (framePreEnd inp dt s)))).coins = _
  show (endCheck (framePreEnd inp dt s)).coins = _
  rw [endCheck_coins]
  show (gravityStep dt (inputStep inp dt s)).coins.map _ = _
  rw [show (gravityStep dt (inputStep inp dt s)).coins = s.coins from inputStep_coins inp dt s]

theorem coinStep_score (mrect : Rect) (s : GameState) :
    (coinStep mrect s).score = s.score + 100 * s.coins.countP (coinHit mrect) := rfl

theorem frameStep_score_le (inp : Input) (dt : ℚ) (s : GameState) :
    s.score ≤ (frameStep inp dt s).score := by
  have h1 : (frameStep inp dt s).score = (framePreEnd inp dt s).score := endCheck_score _
  rw [h1]
  show s.score ≤ (goombaStep dt levelBlocks (marioRect (gravityStep dt (inputStep inp dt s)))
    (coinStep (marioRect (gravityStep dt (inputStep inp dt s)))
      (collisionStep (marioRect (gravityStep dt (inputStep inp dt s)))
        (gravityStep dt (inputStep inp dt s))))).score
  refine Nat.le_trans ?_ (goombaStep_score_le _ _ _ _)
  rw [coinStep_score]
  have h3 : (collisionStep (marioRect (gravityStep dt (inputStep inp dt s)))
      (gravityStep dt (inputStep inp dt s))).score = s.score := inputStep_score inp dt s
  rw [h3]
  exact Nat.le_add_right s.score _

/-! ## Goomba speed-magnitude lemmas -/

theorem goombaBlockStep_velAbs (acc : Rect × Int × Bool) (blk : Int × Int) :
    ((goombaBlockStep acc blk).2.1).natAbs = (acc.2.1).natAbs := by
  simp only [goombaBlockStep]
  split
  · split <;> simp [Int.natAbs_neg]
  · rfl

theorem goombaBlocks_velAbs (bs : List (Int × Int)) :
    ∀ acc : Rect × Int × Bool,
      ((bs.foldl goombaBlockStep acc).2.1).natAbs = (acc.2.1).natAbs := by
  induction bs with
  | nil => intro acc; rfl
  | cons b bs ih =>
    intro acc
    rw [List.foldl_cons, ih (goombaBlockStep acc b), goombaBlockStep_velAbs]

theorem goombaUpdate_velAbs (dt : ℚ) (blocks : List (Int × Int)) (g : Goomba) :
    ((Goomba.update dt blocks g).vel_x).natAbs = (g.vel_x).natAbs := by
  unfold Goomba.update
  split
  · rfl
  · exact goombaBlocks_velAbs blocks _

theorem goombaUpdates_velAbs (updates : List (ℚ × List (Int × Int))) :
    ∀ g : Goomba,
      ((updates.foldl (fun g u => Goomba.update u.1 u.2 g) g).vel_x).natAbs =
        (g.vel_x).natAbs := by
  induction updates with
  | nil => intro g; rfl
  | cons u us ih =>
    intro g
    rw [List.foldl_cons, ih (Goomba.update u.1 u.2 g), goombaUpdate_velAbs]

/-! ## Claim theorems -/

/-- C10: a goomba's horizontal speed magnitude is the constant 60 after
any sequence of frame updates: tile collisions only flip the sign of
`vel_x`, never its magnitude, and a dead goomba no longer updates. -/
theorem goomba_speed_invariant (x y : Int) (d : Bool)
    (updates : List (ℚ × List (Int × Int))) :
    ((updates.foldl (fun g u => Goomba.update u.1 u.2 g) (Goomba.init x y d)).vel_x).natAbs
      = 60 := by
  rw [goombaUpdates_velAbs]
  cases d <;> rfl

/-- C7: at the end of every frame, after the clamp step, the player's
horizontal position lies in the interval [0, WORLD_W - MARIO_W]. -/
theorem player_x_in_bounds (s : GameState) (inp : Input) (dt : ℚ) :
    0 ≤ (frameStep inp dt s).mario_x ∧
    (frameStep inp dt s).mario_x ≤ ((WORLD_W - MARIO_W : Int) : ℚ) := by
  have h : (frameStep inp dt s).mario_x =
      pymax 0 (pymin ((WORLD_W - MARIO_W : Int) : ℚ)
        (endCheck (framePreEnd inp dt s)).mario_x) := rfl
  rw [h]
  exact pymax_pymin_bounds 0 _ _ (by norm_num [WORLD_W, MARIO_W])

/-- C8: after every frame the camera offset equals the clamped follow
formula over the player's rect center, and therefore lies in
[0, WORLD_W - SCREEN_W]. -/
theorem camera_follows_clamped (s : GameState) (inp : Input) (dt : ℚ) :
    (frameStep inp dt s).camera_x =
      max 0 (min ((marioRect (frameStep inp dt s)).centerx - SCREEN_W / 2)
        (WORLD_W - SCREEN_W)) ∧
    0 ≤ (frameStep inp dt s).camera_x ∧
    (frameStep inp dt s).camera_x ≤ WORLD_W - SCREEN_W := by
  have h : (frameStep inp dt s).camera_x =
      pymaxI 0 (pyminI ((marioRect (frameStep inp dt s)).centerx - SCREEN_W / 2)
        (WORLD_W - SCREEN_W)) := rfl
  refine ⟨?_, ?_, ?_⟩
  · rw [h, pymaxI_eq_max, pyminI_eq_min]
  · rw [h]
    exact (pymaxI_pyminI_bounds' 0 _ _ (by norm_num [WORLD_W, SCREEN_W])).1
  · rw [h]
    exact (pymaxI_pyminI_bounds' 0 _ _ (by norm_num [WORLD_W, SCREEN_W])).2

/-- C2: on overlap between the player's rect and a live goomba, a
positive vertical velocity (descending contact) kills the goomba, sets
the player's vertical velocity to JUMP_FORCE / 2, adds the fixed stomp
reward 200, and leaves the running flag untouched; any non-positive
vertical velocity at contact sets running to false in the same frame. -/
theorem stomp_and_fatal (mrect : Rect) (g : Goomba) (v : ℚ) (sc : Nat) (run : Bool)
    (hg : g.dead = false) (hc : Rect.colliderect mrect g.rect = true) :
    (0 < v →
      (goombaInteract mrect g v sc run).1.dead = true ∧
      (goombaInteract mrect g v sc run).2.1 = JUMP_FORCE / 2 ∧
      (goombaInteract mrect g v sc run).2.2.1 = sc + 200 ∧
      (goombaInteract mrect g v sc run).2.2.2 = run) ∧
    (v ≤ 0 → (goombaInteract mrect g v sc run).2.2.2 = false) := by
  have hcond : (!g.dead && Rect.colliderect mrect g.rect) = true := by
    rw [hg, hc]
    rfl
  constructor
  · intro hv
    simp only [goombaInteract, hcond, if_true]
    rw [if_pos hv]
    exact ⟨rfl, rfl, rfl, rfl⟩
  · intro hv
    simp only [goombaInteract, hcond, if_true]
    rw [if_neg (not_lt.mpr hv)]

/-- C2 witness: a concrete descending-capable overlap between the player
rect and the first goomba spawn. -/
theorem stomp_and_fatal_witness :
    ((0 : ℚ) < 1 →
      (goombaInteract stompRect (Goomba.init 800 416 true) 1 0 true).1.dead = true ∧
      (goombaInteract stompRect (Goomba.init 800 416 true) 1 0 true).2.1 = JUMP_FORCE / 2 ∧
      (goombaInteract stompRect (Goomba.init 800 416 true) 1 0 true).2.2.1 = 0 + 200 ∧
      (goombaInteract stompRect (Goomba.init 800 416 true) 1 0 true).2.2.2 = true) ∧
    ((1 : ℚ) ≤ 0 →
      (goombaInteract stompRect (Goomba.init 800 416 true) 1 0 true).2.2.2 = false) :=
  stomp_and_fatal stompRect (Goomba.init 800 416 true) 1 0 true rfl (by decide)

/-- C9: the end-state display shows the win message exactly when the
player's horizontal position exceeds goal_x, and it depends on nothing
else in the final state. -/
theorem display_win_iff (s t : GameState) (hx : s.mario_x = t.mario_x) :
    (endDisplay s = "YOU WIN!" ↔ s.mario_x > (goal_x : ℚ)) ∧
    endDisplay s = endDisplay t := by
  constructor
  · unfold endDisplay
    by_cases h : s.mario_x > (goal_x : ℚ)
    · rw [if_pos h]
      exact ⟨fun _ => h, fun _ => rfl⟩
    · rw [if_neg h]
      exact ⟨fun hc => absurd hc (by decide), fun hc => absurd hc h⟩
  · unfold endDisplay
    rw [hx]

/-- C9 witness: the iff instantiated at the rest state. -/
theorem display_win_iff_witness :
    ((endDisplay restState = "YOU WIN!" ↔ restState.mario_x > (goal_x : ℚ)) ∧
      endDisplay restState = endDisplay restState) :=
  display_win_iff restState restState rfl

/-- C4 (amended): the jump impulse fires in a tick exactly when the jump
key is held and the player is grounded; there is no new-press edge
detection, so a key held from earlier ticks re-triggers on landing. -/
theorem jump_iff_held_and_grounded (s : GameState) (inp : Input) (dt : ℚ) :
    (inputStep inp dt s).vel_y =
      (if inp.space && s.on_ground then JUMP_FORCE else s.vel_y) ∧
    (inputStep inp dt s).on_ground =
      (if inp.space && s.on_ground then false else s.on_ground) := by
  cases hb : (inp.space && s.on_ground) <;> simp [inputStep, hb]

/-- C1 (amended): the loop exits a frame exactly when any of the three
conditions holds (fatal goomba contact during the goomba phase, fall
below the screen, or crossing goal_x + 80), and the end-state display
then shows the win message iff the final horizontal position exceeds
goal_x, independent of which condition ended the loop. -/
theorem exit_disjunction_and_display (s : GameState) (inp : Input) (dt : ℚ) :
    ((frameStep inp dt s).running = false ↔
      ((framePreEnd inp dt s).running = false ∨
       (framePreEnd inp dt s).mario_y > (SCREEN_H : ℚ) ∨
       (framePreEnd inp dt s).mario_x > (goal_x : ℚ) + 80)) ∧
    (endDisplay (frameStep inp dt s) = "YOU WIN!" ↔
      (frameStep inp dt s).mario_x > (goal_x : ℚ)) := by
  constructor
  · have hrun : (frameStep inp dt s).running = (endCheck (framePreEnd inp dt s)).running := rfl
    rw [hrun]
    generalize framePreEnd inp dt s = t
    unfold endCheck
    by_cases h1 : t.mario_y > (SCREEN_H : ℚ) <;>
      by_cases h2 : t.mario_x > (goal_x : ℚ) + 80 <;>
        simp [h1, h2]
  · unfold endDisplay
    by_cases h : (frameStep inp dt s).mario_x > (goal_x : ℚ)
    · rw [if_pos h]
      exact ⟨fun _ => h, fun _ => rfl⟩
    · rw [if_neg h]
      exact ⟨fun hc => absurd hc (by decide), fun hc => absurd hc h⟩

/-- C6: across any frame the score never decreases, and a coin whose
collected flag is already set is left untouched by the frame (so it can
never score again) and is excluded from the rendered coins. -/
theorem coin_and_score_invariants (s : GameState) (inp : Input) (dt : ℚ) :
    s.score ≤ (frameStep inp dt s).score ∧
    (∀ (i : Nat) (c : Coin), s.coins.get? i = some c → c.alive = false →
      (frameStep inp dt s).coins.get? i = some c ∧
      c ∉ drawnCoins (frameStep inp dt s)) := by
  refine ⟨frameStep_score_le inp dt s, ?_⟩
  intro i c hi hal
  have hc : (frameStep inp dt s).coins.get? i = some c := by
    rw [frameStep_coins, List.get?_map, hi]
    simp [coinHit, hal]
  refine ⟨hc, ?_⟩
  intro hmem
  have := (List.mem_filter.mp hmem).2
  rw [hal] at this
  exact Bool.false_ne_true this

/-- C6 witness: a state holding one already-collected coin. -/
theorem coin_and_score_invariants_witness :
    collectedCoinState.score ≤ (frameStep noInput (1/60) collectedCoinState).score ∧
    ((frameStep noInput (1/60) collectedCoinState).coins.get? 0 =
        some { x := 75, y := 400, alive := false } ∧
      ({ x := 75, y := 400, alive := false } : Coin) ∉
        drawnCoins (frameStep noInput (1/60) collectedCoinState)) :=
  ⟨(coin_and_score_invariants collectedCoinState noInput (1/60)).1,
   (coin_and_score_invariants collectedCoinState noInput (1/60)).2 0
     { x := 75, y := 400, alive := false } rfl rfl⟩

/-- C1 counterexample: a frame in which the fall condition (first in the
claimed priority order) holds, so the session should end Lost by the
claim, yet the end-state display shows the win message, because the
display tests only `mario_x > goal_x`. -/
theorem fall_frame_displays_win :
    (frameStep noInput (1/60) fallWinState).running = false ∧
    (frameStep noInput (1/60) fallWinState).mario_y > (SCREEN_H : ℚ) ∧
    (frameStep noInput (1/60) fallWinState).mario_x > (goal_x : ℚ) + 80 ∧
    endDisplay (frameStep noInput (1/60) fallWinState) = "YOU WIN!" := by decide

/-- C3 counterexample: from the rest state the vertical position is
already changed at the end of the very first frame (392 becomes
392 + 1/4): the truncating rect collision misses, so the gravity step is
not undone that tick. -/
theorem rest_frame_y_changes :
    restState.mario_y = ((GROUND_Y - MARIO_H : Int) : ℚ) ∧
    (frameStep noInput (1/60) restState).mario_x = restState.mario_x ∧
    (frameStep noInput (1/60) restState).mario_y ≠ restState.mario_y := by decide

/-- C3 (amended): over 10 input-free frames from rest the horizontal
position never changes, while the vertical position cycles with period
3 (rest + 1/4, rest + 3/4, rest): the collision snap undoes gravity only
every third tick, once the accumulated sub-pixel descent crosses the
integer tile boundary. -/
theorem rest_ten_frame_trace :
    (stepTrace noInput (1/60) 10 restState).map (fun t => (t.mario_x, t.mario_y)) =
      [(50, 392 + 1/4), (50, 392 + 3/4), (50, 392),
       (50, 392 + 1/4), (50, 392 + 3/4), (50, 392),
       (50, 392 + 1/4), (50, 392 + 3/4), (50, 392),
       (50, 392 + 1/4)] := by decide

/-- C4 counterexample: with the jump key held from the start, the player
lands at the end of frame 3 (grounded, vertical velocity 0), and frame 4
- whose input is identical to frame 3's, so the key is held, not newly
pressed - still fires the jump impulse: the end-of-frame velocity is
JUMP_FORCE plus one gravity step rather than a resting value, and the
grounded flag is cleared again. -/
theorem held_space_retriggers_jump :
    heldJumpState.on_ground = true ∧ heldJumpState.vel_y = 0 ∧
    (frameStep spaceInput (1/60) heldJumpState).vel_y = JUMP_FORCE + GRAVITY * (1/60) ∧
    (frameStep spaceInput (1/60) heldJumpState).on_ground = false := by decide

/-- C5 counterexample: starting grounded at x = 50 with zero vertical
velocity, one frame with the jump key pressed leaves the vertical
velocity different from JUMP_FORCE, because the same frame also applies
a gravity step after the impulse. -/
theorem one_frame_jump_vel_not_impulse :
    (frameStep spaceInput (1/60) restState).vel_y ≠ JUMP_FORCE := by decide

/-- C5 (amended): from the grounded start at x = 50, one frame with the
jump key pressed at dt = 1/60 ends with vertical velocity
JUMP_FORCE + GRAVITY * (1/60) = -405 and the grounded flag false. -/
theorem one_frame_jump_vel :
    (frameStep spaceInput (1/60) restState).vel_y = JUMP_FORCE + GRAVITY * (1/60) ∧
    (frameStep spaceInput (1/60) restState).on_ground = false := by decide
